import Mathlib

/-!
Shallow embedding of the adaptive request flow subsystem of `pyslacker`
(`src/pyslacker/core/adaptive_request_manager.py`), of the byte-size
formatter (`src/util/io.py`), and of the SGR sequence helpers
(`src/sgr.py`), together with theorems settling the specification claims.

Python `float` arithmetic is modelled by exact rational arithmetic (`ℚ`);
decimal literals of the source become the corresponding exact rationals.
Where sub-ulp rounding decides a claim, the affected routines are
additionally embedded under IEEE-754 binary64 semantics (the `_fp`
definitions): `fl` rounds an exact rational to the nearest double, every
float operation of the source rounds once through it, and the float
literals of the source become the exact values of their nearest doubles.
Renderer and logger calls are modelled as an ordered event trace; a raised
Python exception is modelled as an `Except.error` outcome.  `_sleep`
slices a wait into one-second ticks; the slicing preserves the total
duration, so a single `sleepTotal` trace event carries the total.
-/

namespace Pyslacker

/-- Python exceptions that the embedded code paths can raise.
`retryExhausted` stands for `RuntimeError('Max retry amount exceeded')`. -/
inductive PyError where
  | indexError
  | zeroDivision
  | keyError
  | retryExhausted
  deriving DecidableEq

instance {ε α : Type} [DecidableEq ε] [DecidableEq α] :
    DecidableEq (Except ε α) := fun x y =>
  match x, y with
  | Except.ok a, Except.ok b =>
    if h : a = b then isTrue (by rw [h])
    else isFalse (by intro k; cases k; exact h rfl)
  | Except.error a, Except.error b =>
    if h : a = b then isTrue (by rw [h])
    else isFalse (by intro k; cases k; exact h rfl)
  | Except.ok _, Except.error _ => isFalse (by intro k; cases k)
  | Except.error _, Except.ok _ => isFalse (by intro k; cases k)

/-- A `requests.Response` as far as the controller inspects it: its status
code and the optional `Retry-After` header (already converted to a number,
as `float(response.headers["Retry-After"])` does). -/
structure Response where
  status_code : ℕ
  retryAfterHeader : Option ℚ
  deriving DecidableEq

/-- `response.ok` of the `requests` library: true iff the status code is
below 400. -/
def Response.ok (r : Response) : Bool := r.status_code < 400

/-- One renderer/sleep notification issued by the controller
(`RequestSequenceRenderer` hook calls and `time.sleep`, in order).
Message strings are elided; the identity and arguments of each call are
kept. -/
inductive Event where
  | beforeRequest (request_num : ℕ)
  | beforeRequestAttempt (attempt_num : ℕ)
  | onRequestFailure (attempt_num : ℕ)
  | updateStatistics (response_ok : Bool) (size : ℕ) (rpm : Option ℚ)
  | onRequestCompletion (response_ok : Bool) (status_code : ℕ)
  | beforeSleeping (delay_sec : ℚ)
  | afterSleeping
  | sleepTotal (seconds : ℚ)
  | onPostRequestDelayUpdate (delta_sign : ℤ)
  | printEvent (persist : Bool)
  deriving DecidableEq

/-- Mutable state of `AdaptiveRequestManager` (the renderer and logger
singletons are externalized to the event trace). `rpm = none` models
Python `None`; `reinit` stores `0.0` there, modelled as `some 0`. -/
structure MgrState where
  post_req_delay : ℚ
  req_num : ℕ
  successive_req_num : ℕ
  samples : List ℚ
  rpm : Option ℚ
  rpm_allowed_to_increase : Bool
  delay_adjustment_enabled : Bool
  rpm_max : Option ℚ
  deriving DecidableEq

/-- `RETRY_MAX_NUM = 20`. -/
def RETRY_MAX_NUM : ℕ := 20

/-- `SAMPLES_MAX_LEN = 60`. -/
def SAMPLES_MAX_LEN : ℕ := 60

/-- `OPTIMIZING_THRESHOLD_MIN = 1.5`. -/
def OPTIMIZING_THRESHOLD_MIN : ℚ := 3/2

/-- `DELAY_POST_MIN_SEC = 0.0`. -/
def DELAY_POST_MIN_SEC : ℚ := 0

/-- `DELAY_POST_REQUEST_INITIAL_SEC = DELAY_POST_MIN_SEC`. -/
def DELAY_POST_REQUEST_INITIAL_SEC : ℚ := DELAY_POST_MIN_SEC

/-- `DELAY_POST_REQUEST_STABILIZE_SEC = .20`. -/
def DELAY_POST_REQUEST_STABILIZE_SEC : ℚ := 1/5

/-- `DELAY_POST_REQUEST_OPTIMIZE_SEC = .10`. -/
def DELAY_POST_REQUEST_OPTIMIZE_SEC : ℚ := 1/10

/-- `[0.5] + [pow(1.2, i) + 10 * x for i, x in enumerate(range(0, RETRY_MAX_NUM))]`:
a list of `1 + RETRY_MAX_NUM = 21` backoff durations (valid indices 0..20). -/
def DELAY_TRANSPORT_FAILURE_SEC : List ℚ :=
  [1/2] ++ (List.range RETRY_MAX_NUM).map (fun (i : ℕ) => (6/5 : ℚ) ^ i + 10 * (i : ℚ))

/-- `DELAY_TRANSPORT_FAILURE_STATIC_SEC = 30`. -/
def DELAY_TRANSPORT_FAILURE_STATIC_SEC : ℚ := 30

/-- Python `abs` on a number. -/
def pyabs (q : ℚ) : ℚ := if q < 0 then -q else q

/-- Python `max` on two numbers (returns the first argument when equal). -/
def pymax (a b : ℚ) : ℚ := if b ≤ a then a else b

/-- `math.isclose(a, b, abs_tol=1e-03)` with the default `rel_tol=1e-09`,
as called at every call site of the manager:
`|a - b| ≤ max(rel_tol * max(|a|, |b|), abs_tol)`. -/
def isclose (a b : ℚ) : Bool :=
  pyabs (a - b) ≤ pymax ((1/1000000000) * pymax (pyabs a) (pyabs b)) (1/1000)

/-- `AdaptiveRequestManager.compute_rpm`: `60 * len(samples) / (samples[0]
- samples[-1])` when more than 5 samples are present, else `None`. -/
def compute_rpm (samples : List ℚ) : Option ℚ :=
  if 5 < samples.length then
    some (60 * samples.length / (samples.headI - samples.getLastI))
  else none

/-- `AdaptiveRequestManager._set_post_req_delay`: clamp to the floor,
suppress the write when the new value is `isclose` to the current one. -/
def set_post_req_delay (s : MgrState) (new_value : ℚ) : MgrState :=
  let nv := pymax DELAY_POST_MIN_SEC new_value
  if isclose s.post_req_delay nv then s
  else { s with post_req_delay := nv }

/-- `AdaptiveRequestManager._shift_pre_request_delay`.  The source computes
`int(delta / abs(delta))` after the setter call; for `delta = 0` this is
Python `0.0 / 0.0`, a `ZeroDivisionError`. -/
def shift_pre_request_delay (s : MgrState) (delta : ℚ) :
    Except PyError MgrState × List Event :=
  if delta < 0 ∧ isclose DELAY_POST_MIN_SEC s.post_req_delay then
    (Except.ok s, [])
  else
    let s' := set_post_req_delay s (s.post_req_delay + delta)
    if delta = 0 then (Except.error PyError.zeroDivision, [])
    else
      (Except.ok s',
       [Event.onPostRequestDelayUpdate (if 0 < delta then 1 else -1),
        Event.printEvent true])

/-- `AdaptiveRequestManager._stabilize_flow` (increase the delay). -/
def stabilize_flow (s : MgrState) (retry_after_sec : ℚ) :
    Except PyError MgrState × List Event :=
  if s.delay_adjustment_enabled = false then (Except.ok s, [])
  else
    let delta_with_response := retry_after_sec - s.post_req_delay
    let r :=
      if DELAY_POST_REQUEST_STABILIZE_SEC ≤ delta_with_response then
        shift_pre_request_delay s
          (delta_with_response - DELAY_POST_REQUEST_STABILIZE_SEC)
      else
        shift_pre_request_delay s DELAY_POST_REQUEST_STABILIZE_SEC
    match r.1 with
    | Except.ok s' => (Except.ok { s' with successive_req_num := 0 }, r.2)
    | Except.error err => (Except.error err, r.2)

/-- `AdaptiveRequestManager.minutes_without_failures` property. -/
def minutes_without_failures (s : MgrState) : ℚ := s.successive_req_num / 60

/-- `AdaptiveRequestManager._optimize_flow` (decrease the delay).
`_apply_rpm_limit` is an intentional no-op in the source and is elided. -/
def optimize_flow (s : MgrState) : Except PyError MgrState × List Event :=
  if s.delay_adjustment_enabled = false then (Except.ok s, [])
  else
    let s1 := { s with successive_req_num := s.successive_req_num + 1 }
    if OPTIMIZING_THRESHOLD_MIN ≤ minutes_without_failures s1
        ∧ s1.rpm_allowed_to_increase = true then
      let r := shift_pre_request_delay s1 (-DELAY_POST_REQUEST_OPTIMIZE_SEC)
      match r.1 with
      | Except.ok s2 =>
        let s3 := { s2 with successive_req_num := 0 }
        (Except.ok s3, r.2 ++ [Event.sleepTotal s3.post_req_delay])
      | Except.error err => (Except.error err, r.2)
    else (Except.ok s1, [Event.sleepTotal s1.post_req_delay])

/-- `AdaptiveRequestManager._get_progressing_delay_on_failure`:
`DELAY_TRANSPORT_FAILURE_SEC[attempt_num]` when adaptive delays are
enabled (an `IndexError` past the end of the 21-element list), the static
duration otherwise. -/
def get_progressing_delay_on_failure (s : MgrState) (attempt_num : ℕ) :
    Except PyError ℚ :=
  if s.delay_adjustment_enabled = true then
    match DELAY_TRANSPORT_FAILURE_SEC[attempt_num]? with
    | some d => Except.ok d
    | none => Except.error PyError.indexError
  else Except.ok DELAY_TRANSPORT_FAILURE_STATIC_SEC

/-- `AdaptiveRequestManager.on_request_failure`: renderer notification,
backoff lookup, counter reset, sliced sleep. -/
def on_request_failure (s : MgrState) (attempt_num : ℕ) :
    Except PyError MgrState × List Event :=
  let e0 := [Event.onRequestFailure attempt_num]
  match get_progressing_delay_on_failure s attempt_num with
  | Except.error err => (Except.error err, e0)
  | Except.ok delay =>
    (Except.ok { s with successive_req_num := 0 },
     e0 ++ [Event.beforeSleeping delay, Event.sleepTotal delay,
            Event.afterSleeping])

/-- `AdaptiveRequestManager.on_request_completion`: statistics
notifications (with the rpm value from before the window update), window
update (a full deque drops its oldest, rightmost element), rpm recompute,
then `_optimize_flow`.  `now` is the value of `time()`. -/
def on_request_completion (s : MgrState) (response : Response)
    (response_size : ℕ) (now : ℚ) : Except PyError MgrState × List Event :=
  let e0 := [Event.updateStatistics response.ok response_size s.rpm,
             Event.onRequestCompletion response.ok response.status_code]
  let samples1 :=
    if SAMPLES_MAX_LEN ≤ s.samples.length then s.samples.dropLast
    else s.samples
  let samples2 := now :: samples1
  let s1 := { s with samples := samples2, rpm := compute_rpm samples2 }
  let r := optimize_flow s1
  (r.1, e0 ++ r.2)

/-- `AdaptiveRequestManager.on_rate_limited_request_fail`: stabilize, then
sleep `retry_after_sec + post_req_delay` (delay taken after Stabilize). -/
def on_rate_limited_request_fail (s : MgrState) (retry_after_sec : ℚ) :
    Except PyError MgrState × List Event :=
  let r := stabilize_flow s retry_after_sec
  match r.1 with
  | Except.ok s' =>
    (Except.ok s',
     r.2 ++ [Event.beforeSleeping retry_after_sec,
             Event.sleepTotal (retry_after_sec + s'.post_req_delay)])
  | Except.error err => (Except.error err, r.2)

/-- The request-issuing callback: given the attempt number it returns a
response and a content size, or raises a transport failure
(`Except.error ()`). -/
def RequestFn : Type := ℕ → Except Unit (Response × ℕ)

/-- A clock assigning a `time()` value to each attempt's completion. -/
def Clock : Type := ℕ → ℚ

/-- The `while attempt_num <= RETRY_MAX_NUM` loop of
`perform_retriable_request`.  `fuel` is the number of loop iterations
still permitted: the loop is entered with `attempt_num = 0` and
`fuel = RETRY_MAX_NUM + 1`, maintaining `fuel = RETRY_MAX_NUM + 1 -
attempt_num`, so `fuel = 0` is exactly the loop guard failing and the
`RuntimeError('Max retry amount exceeded')` being raised. -/
def performLoop (request_fn : RequestFn) (clock : Clock)
    (completion_fn : Bool) (fuel attempt_num : ℕ) (s : MgrState) :
    Except PyError (Response × MgrState) × List Event :=
  if fuel = 0 then (Except.error PyError.retryExhausted, [])
  else
    let a := attempt_num + 1
    let e0 := [Event.beforeRequestAttempt a]
    match request_fn a with
    | Except.error _ =>
      let rfail := on_request_failure s a
      match rfail.1 with
      | Except.ok s' =>
        let r2 := performLoop request_fn clock completion_fn (fuel - 1) a s'
        (r2.1, e0 ++ rfail.2 ++ r2.2)
      | Except.error err => (Except.error err, e0 ++ rfail.2)
    | Except.ok (response, content_size) =>
      let rcomp := on_request_completion s response content_size (clock a)
      match rcomp.1 with
      | Except.ok s1 =>
        if response.ok = false ∧ response.status_code = 429 then
          match response.retryAfterHeader with
          | none => (Except.error PyError.keyError, e0 ++ rcomp.2)
          | some retry_after =>
            let rlim := on_rate_limited_request_fail s1 retry_after
            match rlim.1 with
            | Except.ok s2 =>
              let r3 := performLoop request_fn clock completion_fn (fuel - 1) a s2
              (r3.1, e0 ++ rcomp.2 ++ rlim.2 ++ r3.2)
            | Except.error err => (Except.error err, e0 ++ rcomp.2 ++ rlim.2)
        else
          (Except.ok (response, s1),
           e0 ++ rcomp.2 ++ (if completion_fn then [Event.printEvent false] else []))
      | Except.error err => (Except.error err, e0 ++ rcomp.2)
  termination_by fuel
  decreasing_by all_goals omega

/-- `AdaptiveRequestManager.perform_retriable_request`: bump the request
ordinal, notify the renderer, run the retry loop.  `completion_fn`
indicates whether an optional completion callback was supplied. -/
def perform_retriable_request (s : MgrState) (request_fn : RequestFn)
    (clock : Clock) (completion_fn : Bool) :
    Except PyError (Response × MgrState) × List Event :=
  let s0 := { s with req_num := s.req_num + 1 }
  let r := performLoop request_fn clock completion_fn (RETRY_MAX_NUM + 1) 0 s0
  (r.1, Event.beforeRequest s0.req_num :: r.2)

/-- `AdaptiveRequestManager.reinit` (the renderer's own reinit is
elided). -/
def reinit (s : MgrState) : MgrState :=
  let s1 := { s with req_num := 0, successive_req_num := 0,
                     samples := [], rpm := some 0 }
  if s1.delay_adjustment_enabled = true then
    set_post_req_delay s1 DELAY_POST_REQUEST_INITIAL_SEC
  else { s1 with post_req_delay := 0 }

/-- The state after `__init__` (which ends in `reinit()`): adaptive mode
enabled, no rpm cap, delay at the floor. -/
def initialState : MgrState :=
  reinit { post_req_delay := 0, req_num := 0, successive_req_num := 0,
           samples := [], rpm := some 0, rpm_allowed_to_increase := true,
           delay_adjustment_enabled := true, rpm_max := none }

/-- Number of `before_request_attempt` notifications in a trace; the loop
invokes the callback exactly once right after each such notification, so
this counts callback invocations. -/
def countAttempts (l : List Event) : ℕ :=
  (l.filter fun e => match e with
    | Event.beforeRequestAttempt _ => true
    | _ => false).length

/-- Number of actual sleeps (`time.sleep` totals) in a trace. -/
def countSleeps (l : List Event) : ℕ :=
  (l.filter fun e => match e with
    | Event.sleepTotal _ => true
    | _ => false).length

/-- Decimal digit character (`m < 10` at every use). -/
def digitChar : ℕ → Char
  | 0 => '0'
  | 1 => '1'
  | 2 => '2'
  | 3 => '3'
  | 4 => '4'
  | 5 => '5'
  | 6 => '6'
  | 7 => '7'
  | 8 => '8'
  | 9 => '9'
  | _ => '*'

/-- Fuel-driven decimal rendering; any `fuel > n` gives the digits of `n`. -/
def natCharsAux : ℕ → ℕ → List Char
  | 0, _ => []
  | fuel + 1, n =>
    if n < 10 then [digitChar n]
    else natCharsAux fuel (n / 10) ++ [digitChar (n % 10)]

/-- Python `str` of a nonnegative int: its decimal digits. -/
def natChars (n : ℕ) : List Char := natCharsAux (n + 1) n

/-- Python `str` of an int. -/
def intChars (z : ℤ) : List Char :=
  if z < 0 then '-' :: natChars z.natAbs else natChars z.toNat

/-- Left-pad a character list with `c` to width `w`. -/
def padLeftWith (c : Char) (w : ℕ) (l : List Char) : List Char :=
  List.replicate (w - l.length) c ++ l

/-- Round a rational to the nearest integer, ties to even: the rounding
Python's fixed-point float formatting performs (here applied to the exact
value). -/
def roundHalfEven (q : ℚ) : ℤ :=
  let f := ⌊q⌋
  let r := q - f
  if r < 1/2 then f
  else if 1/2 < r then f + 1
  else if f % 2 = 0 then f else f + 1

/-- Python `format(x, 'w.df')` for a nonnegative number: fixed `d`
decimals, right-aligned with spaces in width `w` (no decimal point when
`d = 0`). -/
def fixedFormat (q : ℚ) (width decimals : ℕ) : List Char :=
  let n := (roundHalfEven (q * 10 ^ decimals)).toNat
  let intPart := natChars (n / 10 ^ decimals)
  let fracPart := padLeftWith '0' decimals (natChars (n % 10 ^ decimals))
  let core := if decimals = 0 then intPart else intPart ++ '.' :: fracPart
  padLeftWith ' ' width core

/-- `AutoFloat.__format__` for the spec `'5f'` (the only spec `fmt_sizeof`
uses): `max_len = 5`, at most 2 decimals, decimal count adapted to the
integer part's length (`trunc` of the nonnegative argument is its floor). -/
def autoFloat5 (q : ℚ) : List Char :=
  let integer_len := (natChars ⌊q⌋.toNat).length
  let decimals_and_point_len := min 3 (5 - integer_len)
  let decimals_len :=
    if 2 ≤ decimals_and_point_len then decimals_and_point_len - 1 else 0
  fixedFormat q 5 decimals_len

/-- The unit name progression of `fmt_sizeof`. -/
def SIZEOF_UNIT_NAMES : List String := ["", "k", "M", "G", "T", "P", "E", "Z"]

/-- The `for unit_idx, unit_prefix in enumerate(...)` loop of
`fmt_sizeof`.  The final fallback is `f'{num!s}{unit}'`; its `str(float)`
rendering is abstracted to the integer part (inputs below `1024^8` bytes
never reach that branch). -/
def sizeofGo : List String → ℕ → ℚ → String
  | [], _, n => String.mk (natChars ⌊n⌋.toNat) ++ "b"
  | upfx :: rest, unit_idx, n =>
    if 1024 ≤ n then sizeofGo rest (unit_idx + 1) (n / 1024)
    else
      let num_str :=
        if unit_idx = 0 then String.mk (padLeftWith ' ' 5 (natChars ⌊n⌋.toNat))
        else String.mk (autoFloat5 n)
      num_str ++ " " ++ upfx ++ "b"

/-- `fmt_sizeof(num)` from `src/util/io.py` with the default
`separator=' '` and `unit='b'`.  At `unit_idx = 0` the value is still the
original integer, so `f'{num:5d}'` renders its floor's digits. -/
def fmt_sizeof (num : ℤ) : String :=
  sizeofGo SIZEOF_UNIT_NAMES 0 (pymax 0 (num : ℚ))

/-- Character class `[0-9;]` of `SGRRegistry.SGR_REGEX`. -/
def isParamChar (c : Char) : Bool := c.isDigit || c = ';'

/-- `';'.join(str(p) for p in params)`. -/
def joinParams : List ℤ → List Char
  | [] => []
  | [p] => intChars p
  | p :: q :: rest => intChars p ++ ';' :: joinParams (q :: rest)

/-- `str(SGRSequence(*params))`: `ESC [ <params> m`. -/
def seqStr (params : List ℤ) : List Char :=
  '\x1b' :: '[' :: (joinParams params ++ ['m'])

/-- One attempted match of `SGR_REGEX` (`\033\[[0-9;]*m`) at the head of
the character list, returning the suffix after the match.  The greedy
`[0-9;]*` is deterministic because `m` is not a parameter character. -/
def trySGR : List Char → Option (List Char)
  | c1 :: c2 :: rest =>
    if c1 = '\x1b' ∧ c2 = '[' then
      match rest.dropWhile isParamChar with
      | c3 :: tail => if c3 = 'm' then some tail else none
      | [] => none
    else none
  | _ => none

/-- Fuel-driven scan of `re.sub`: at each position drop a match and resume
after it, otherwise keep the character and advance. -/
def stripAux : ℕ → List Char → List Char
  | 0, l => l
  | _ + 1, [] => []
  | fuel + 1, c :: t =>
    match trySGR (c :: t) with
    | some r => stripAux fuel r
    | none => c :: stripAux fuel t

/-- `SGRRegistry.remove_sgr_seqs(s)` = `SGR_REGEX.sub('', s)`: a left to
right scan dropping every non-overlapping match.  Fuel `l.length` always
suffices because every match consumes at least one character. -/
def remove_sgr_seqs (l : List Char) : List Char := stripAux l.length l

/-- A controller state with adaptive mode enabled and the delay at the
floor (the post-`reinit` configuration). -/
def st0 : MgrState := ⟨0, 0, 0, [], some 0, true, true, none⟩

/-- A controller state with post-request delay 1 second. -/
def st1 : MgrState := ⟨1, 0, 0, [], some 0, true, true, none⟩

/-- A controller state with adaptive delay adjustment disabled
(`args.A`). -/
def stDis : MgrState := ⟨0, 0, 0, [], some 0, true, false, none⟩


/-- The request callback of the claimed scenario: HTTP 429 with
`Retry-After: 5` on the first two invocations, HTTP 200 afterwards. -/
def cbC2 : RequestFn := fun a =>
  if a ≤ 2 then Except.ok (⟨429, some 5⟩, 0) else Except.ok (⟨200, none⟩, 0)


/-- State after the completion handler has processed one 429 from `st0`:
one sample, one consecutive completion, delay still 0. -/
def stC8 : MgrState := ⟨0, 0, 1, [1], none, true, true, none⟩

/-- State after the rate-limit handler has then stabilized with
`Retry-After = 5`: delay 4.8, counter reset. -/
def stC8B : MgrState := ⟨24/5, 0, 0, [1], none, true, true, none⟩

/-- State after the completion handler has processed one 429 from the
disabled state `stDis`: only the sample window changed. -/
def stDisA : MgrState := ⟨0, 0, 0, [1], none, true, false, none⟩


/-! ## IEEE-754 double-precision semantics

The claims about the two-429s-then-success scenario are decided by sub-ulp
rounding, so for them the same source is embedded a second time under
IEEE-754 binary64 semantics: `fl` rounds an exact rational to the nearest
double (ties to even; subnormal underflow and overflow do not occur in the
modelled ranges), every Python float operation is wrapped in one `fl`, and
the float literals of the source become the exact values of their nearest
doubles.  Integer-valued floats of the modelled runs (counters, small
`time()` stamps) are exactly representable and need no rounding. -/

/-- One step of the binary exponent scan of `flScale`: multiply the
power-of-two accumulator `acc` by the power of two `p` when the scaled
value still lies below `2 ^ 52`. -/
def upStep (q acc p : ℚ) : ℚ :=
  if q * (acc * p) < 4503599627370496 then acc * p else acc

/-- Dual step: divide the accumulator by `p` while the scaled value still
lies at or above `2 ^ 53`. -/
def downStep (q acc p : ℚ) : ℚ :=
  if 9007199254740992 ≤ q * (acc / p) then acc / p else acc

/-- For `q > 0`, the power of two `2 ^ e` with `q * 2 ^ e ∈ [2 ^ 52, 2 ^ 53)`:
a greedy scan over the exponent bits `1024, 512, …, 2, 1` finds the largest
power keeping the value below `2 ^ 52` (respectively at or above `2 ^ 53`),
and one final doubling (halving) lands in the mantissa band.  Exponents up
to `2 ^ 11 - 1` cover the whole double range with room to spare. -/
def flScale (q : ℚ) : ℚ :=
  if q < 4503599627370496 then
    2 * upStep q (upStep q (upStep q (upStep q (upStep q (upStep q (upStep q
      (upStep q (upStep q (upStep q (upStep q 1 (2 ^ 1024)) (2 ^ 512))
        (2 ^ 256)) (2 ^ 128)) (2 ^ 64)) (2 ^ 32)) (2 ^ 16)) (2 ^ 8)) (2 ^ 4))
      (2 ^ 2)) 2
  else if 9007199254740992 ≤ q then
    downStep q (downStep q (downStep q (downStep q (downStep q (downStep q
      (downStep q (downStep q (downStep q (downStep q (downStep q 1
        (2 ^ 1024)) (2 ^ 512)) (2 ^ 256)) (2 ^ 128)) (2 ^ 64)) (2 ^ 32))
      (2 ^ 16)) (2 ^ 8)) (2 ^ 4)) (2 ^ 2)) 2 / 2
  else 1

/-- Round an exact rational to the nearest IEEE-754 binary64 value (ties
to even): scale into the mantissa range `[2 ^ 52, 2 ^ 53)` by the power of
two `flScale |q|`, round to an integer half-to-even, scale back.
Subnormal underflow and overflow do not occur in the modelled ranges. -/
def fl (q : ℚ) : ℚ :=
  if q = 0 then 0
  else (roundHalfEven (q * flScale |q|) : ℚ) / flScale |q|

/-- The double nearest `0.20` (`DELAY_POST_REQUEST_STABILIZE_SEC`). -/
def DELAY_POST_REQUEST_STABILIZE_SEC_FP : ℚ :=
  3602879701896397/18014398509481984

/-- The double nearest `0.10` (`DELAY_POST_REQUEST_OPTIMIZE_SEC`). -/
def DELAY_POST_REQUEST_OPTIMIZE_SEC_FP : ℚ :=
  3602879701896397/36028797018963968

/-- The double nearest `1e-03` (the `abs_tol` of every `isclose` call). -/
def ISCLOSE_ABS_TOL_FP : ℚ := 1152921504606847/1152921504606846976

/-- The double nearest `1e-09` (the default `rel_tol` of `isclose`). -/
def ISCLOSE_REL_TOL_FP : ℚ := 4835703278458517/4835703278458516698824704

/-- `math.isclose(a, b, abs_tol=1e-03)` under double semantics: the
subtraction and the `rel_tol` multiplication each round once; `abs`,
`max` and the comparison are exact. -/
def isclose_fp (a b : ℚ) : Bool :=
  pyabs (fl (a - b)) ≤
    pymax (fl (ISCLOSE_REL_TOL_FP * pymax (pyabs a) (pyabs b)))
      ISCLOSE_ABS_TOL_FP

/-- `_set_post_req_delay` under double semantics (`max` is exact). -/
def set_post_req_delay_fp (s : MgrState) (new_value : ℚ) : MgrState :=
  let nv := pymax DELAY_POST_MIN_SEC new_value
  if isclose_fp s.post_req_delay nv then s
  else { s with post_req_delay := nv }

/-- `_shift_pre_request_delay` under double semantics; for nonzero
`delta`, `int(delta / abs(delta))` is the sign (the correctly rounded
quotient of a double by itself is 1). -/
def shift_pre_request_delay_fp (s : MgrState) (delta : ℚ) :
    Except PyError MgrState × List Event :=
  if delta < 0 ∧ isclose_fp DELAY_POST_MIN_SEC s.post_req_delay then
    (Except.ok s, [])
  else
    let s' := set_post_req_delay_fp s (fl (s.post_req_delay + delta))
    if delta = 0 then (Except.error PyError.zeroDivision, [])
    else
      (Except.ok s',
       [Event.onPostRequestDelayUpdate (if 0 < delta then 1 else -1),
        Event.printEvent true])

/-- `_stabilize_flow` under double semantics. -/
def stabilize_flow_fp (s : MgrState) (retry_after_sec : ℚ) :
    Except PyError MgrState × List Event :=
  if s.delay_adjustment_enabled = false then (Except.ok s, [])
  else
    let delta_with_response := fl (retry_after_sec - s.post_req_delay)
    let r :=
      if DELAY_POST_REQUEST_STABILIZE_SEC_FP ≤ delta_with_response then
        shift_pre_request_delay_fp s
          (fl (delta_with_response - DELAY_POST_REQUEST_STABILIZE_SEC_FP))
      else
        shift_pre_request_delay_fp s DELAY_POST_REQUEST_STABILIZE_SEC_FP
    match r.1 with
    | Except.ok s' => (Except.ok { s' with successive_req_num := 0 }, r.2)
    | Except.error err => (Except.error err, r.2)

/-- `minutes_without_failures` under double semantics (the counter is an
int; the division rounds once). -/
def minutes_without_failures_fp (s : MgrState) : ℚ :=
  fl (s.successive_req_num / 60)

/-- `_optimize_flow` under double semantics (`1.5` is exactly
representable, so the threshold constant is shared with the exact
model). -/
def optimize_flow_fp (s : MgrState) : Except PyError MgrState × List Event :=
  if s.delay_adjustment_enabled = false then (Except.ok s, [])
  else
    let s1 := { s with successive_req_num := s.successive_req_num + 1 }
    if OPTIMIZING_THRESHOLD_MIN ≤ minutes_without_failures_fp s1
        ∧ s1.rpm_allowed_to_increase = true then
      let r := shift_pre_request_delay_fp s1
        (-DELAY_POST_REQUEST_OPTIMIZE_SEC_FP)
      match r.1 with
      | Except.ok s2 =>
        let s3 := { s2 with successive_req_num := 0 }
        (Except.ok s3, r.2 ++ [Event.sleepTotal s3.post_req_delay])
      | Except.error err => (Except.error err, r.2)
    else (Except.ok s1, [Event.sleepTotal s1.post_req_delay])

/-- `compute_rpm` under double semantics: `60 * len(samples)` is exact int
arithmetic; the subtraction and the division each round once. -/
def compute_rpm_fp (samples : List ℚ) : Option ℚ :=
  if 5 < samples.length then
    some (fl (60 * samples.length / fl (samples.headI - samples.getLastI)))
  else none

/-- `on_request_completion` under double semantics. -/
def on_request_completion_fp (s : MgrState) (response : Response)
    (response_size : ℕ) (now : ℚ) : Except PyError MgrState × List Event :=
  let e0 := [Event.updateStatistics response.ok response_size s.rpm,
             Event.onRequestCompletion response.ok response.status_code]
  let samples1 :=
    if SAMPLES_MAX_LEN ≤ s.samples.length then s.samples.dropLast
    else s.samples
  let samples2 := now :: samples1
  let s1 := { s with samples := samples2, rpm := compute_rpm_fp samples2 }
  let r := optimize_flow_fp s1
  (r.1, e0 ++ r.2)

/-- `on_rate_limited_request_fail` under double semantics (the sleep
argument `retry_after_sec + post_req_delay` rounds once). -/
def on_rate_limited_request_fail_fp (s : MgrState) (retry_after_sec : ℚ) :
    Except PyError MgrState × List Event :=
  let r := stabilize_flow_fp s retry_after_sec
  match r.1 with
  | Except.ok s' =>
    (Except.ok s',
     r.2 ++ [Event.beforeSleeping retry_after_sec,
             Event.sleepTotal (fl (retry_after_sec + s'.post_req_delay))])
  | Except.error err => (Except.error err, r.2)

/-- The retry loop under double semantics; see `performLoop` for the fuel
convention.  The transport-failure handler does no delay arithmetic (its
backoff durations only label sleep events), so `on_request_failure` is
shared with the exact model; no double-semantics theorem exercises that
branch. -/
def performLoop_fp (request_fn : RequestFn) (clock : Clock)
    (completion_fn : Bool) (fuel attempt_num : ℕ) (s : MgrState) :
    Except PyError (Response × MgrState) × List Event :=
  if fuel = 0 then (Except.error PyError.retryExhausted, [])
  else
    let a := attempt_num + 1
    let e0 := [Event.beforeRequestAttempt a]
    match request_fn a with
    | Except.error _ =>
      let rfail := on_request_failure s a
      match rfail.1 with
      | Except.ok s' =>
        let r2 := performLoop_fp request_fn clock completion_fn (fuel - 1) a s'
        (r2.1, e0 ++ rfail.2 ++ r2.2)
      | Except.error err => (Except.error err, e0 ++ rfail.2)
    | Except.ok (response, content_size) =>
      let rcomp := on_request_completion_fp s response content_size (clock a)
      match rcomp.1 with
      | Except.ok s1 =>
        if response.ok = false ∧ response.status_code = 429 then
          match response.retryAfterHeader with
          | none => (Except.error PyError.keyError, e0 ++ rcomp.2)
          | some retry_after =>
            let rlim := on_rate_limited_request_fail_fp s1 retry_after
            match rlim.1 with
            | Except.ok s2 =>
              let r3 := performLoop_fp request_fn clock completion_fn
                (fuel - 1) a s2
              (r3.1, e0 ++ rcomp.2 ++ rlim.2 ++ r3.2)
            | Except.error err => (Except.error err, e0 ++ rcomp.2 ++ rlim.2)
        else
          (Except.ok (response, s1),
           e0 ++ rcomp.2 ++ (if completion_fn then [Event.printEvent false] else []))
      | Except.error err => (Except.error err, e0 ++ rcomp.2)
  termination_by fuel
  decreasing_by all_goals omega

/-- `perform_retriable_request` under double semantics. -/
def perform_retriable_request_fp (s : MgrState) (request_fn : RequestFn)
    (clock : Clock) (completion_fn : Bool) :
    Except PyError (Response × MgrState) × List Event :=
  let s0 := { s with req_num := s.req_num + 1 }
  let r := performLoop_fp request_fn clock completion_fn (RETRY_MAX_NUM + 1) 0 s0
  (r.1, Event.beforeRequest s0.req_num :: r.2)

/-- `reinit` under double semantics. -/
def reinit_fp (s : MgrState) : MgrState :=
  let s1 := { s with req_num := 0, successive_req_num := 0,
                     samples := [], rpm := some 0 }
  if s1.delay_adjustment_enabled = true then
    set_post_req_delay_fp s1 DELAY_POST_REQUEST_INITIAL_SEC
  else { s1 with post_req_delay := 0 }

/-- The state after `__init__` under double semantics. -/
def initialState_fp : MgrState :=
  reinit_fp { post_req_delay := 0, req_num := 0, successive_req_num := 0,
              samples := [], rpm := some 0, rpm_allowed_to_increase := true,
              delay_adjustment_enabled := true, rpm_max := none }

/-- The double `4.8 = fl(5.0 - 0.2)`: the post-request delay after the
first rate-limit event of the scenario. -/
def D48_FP : ℚ := 5404319552844595/1125899906842624

/-- The state entering the second attempt of the scenario: delay 4.8, one
sample, counter reset by the first Stabilize. -/
def stC2Mid : MgrState := ⟨D48_FP, 1, 0, [1], none, true, true, none⟩

/-- `stC2Mid` after the second attempt's completion handler: one more
sample, counter incremented by Optimize, delay unchanged. -/
def stC2Mid2 : MgrState := ⟨D48_FP, 1, 1, [2, 1], none, true, true, none⟩

/-- `stC2Mid2` after the second rate-limit event: the counter is reset but
the delay is unchanged — the tolerance suppressed the tiny update. -/
def stC2Mid3 : MgrState := ⟨D48_FP, 1, 0, [2, 1], none, true, true, none⟩

/-- The final state of the scenario after the third (successful)
attempt. -/
def stC2Final : MgrState := ⟨D48_FP, 1, 1, [3, 2, 1], none, true, true, none⟩

/-! ## General lemmas about the delay setter and shifter -/

theorem pymax_eq_max (a b : ℚ) : pymax a b = max a b := by
  unfold pymax
  rcases le_total b a with h | h
  · rw [if_pos h, max_eq_left h]
  · rcases eq_or_lt_of_le h with rfl | hlt
    · simp
    · rw [if_neg (not_le.mpr hlt), max_eq_right h]

theorem pyabs_eq_abs (q : ℚ) : pyabs q = |q| := by
  unfold pyabs
  by_cases h : q < 0
  · rw [if_pos h, abs_of_neg h]
  · rw [if_neg h, abs_of_nonneg (not_lt.mp h)]

theorem isclose_true_iff (a b : ℚ) :
    isclose a b = true ↔
      |a - b| ≤ max ((1/1000000000) * max |a| |b|) (1/1000) := by
  simp [isclose, pyabs_eq_abs, pymax_eq_max]

theorem isclose_of_close (a b : ℚ) (h : |a - b| ≤ 1/1000) :
    isclose a b = true := by
  rw [isclose_true_iff]
  exact h.trans (le_max_right _ _)

theorem set_post_req_delay_fields (s : MgrState) (v : ℚ) :
    (set_post_req_delay s v).req_num = s.req_num ∧
    (set_post_req_delay s v).successive_req_num = s.successive_req_num ∧
    (set_post_req_delay s v).samples = s.samples ∧
    (set_post_req_delay s v).rpm = s.rpm ∧
    (set_post_req_delay s v).rpm_allowed_to_increase =
      s.rpm_allowed_to_increase ∧
    (set_post_req_delay s v).delay_adjustment_enabled =
      s.delay_adjustment_enabled ∧
    (set_post_req_delay s v).rpm_max = s.rpm_max := by
  dsimp only [set_post_req_delay]
  split <;> simp

theorem set_post_req_delay_noop (s : MgrState) (v : ℚ)
    (hd : 0 ≤ s.post_req_delay) (h : |s.post_req_delay - v| < 1/1000) :
    set_post_req_delay s v = s := by
  unfold set_post_req_delay
  rw [if_pos]
  apply isclose_of_close
  rw [pymax_eq_max, DELAY_POST_MIN_SEC]
  rcases le_total 0 v with hv | hv
  · rw [max_eq_right hv]
    exact h.le
  · rw [max_eq_left hv]
    rw [abs_sub_comm, abs_sub_lt_iff] at h
    have : s.post_req_delay < 1/1000 := by linarith [h.2]
    rw [sub_zero, abs_of_nonneg hd]
    exact this.le

theorem set_post_req_delay_ge (s : MgrState) (v : ℚ)
    (h : s.post_req_delay ≤ v) :
    s.post_req_delay ≤ (set_post_req_delay s v).post_req_delay := by
  dsimp only [set_post_req_delay]
  split
  · exact le_refl _
  · simp only [pymax_eq_max, DELAY_POST_MIN_SEC]
    exact h.trans (le_max_right _ _)

theorem set_post_req_delay_le (s : MgrState) (v : ℚ)
    (hd : 0 ≤ s.post_req_delay) (h : v ≤ s.post_req_delay) :
    (set_post_req_delay s v).post_req_delay ≤ s.post_req_delay := by
  dsimp only [set_post_req_delay]
  split
  · exact le_refl _
  · simp only [pymax_eq_max, DELAY_POST_MIN_SEC]
    exact max_le hd h

theorem shift_zero (s : MgrState) :
    shift_pre_request_delay s 0 = (Except.error PyError.zeroDivision, []) := by
  simp [shift_pre_request_delay]

theorem shift_cases (s : MgrState) (delta : ℚ) (hδ : delta ≠ 0) :
    shift_pre_request_delay s delta = (Except.ok s, []) ∨
    shift_pre_request_delay s delta =
      (Except.ok (set_post_req_delay s (s.post_req_delay + delta)),
       [Event.onPostRequestDelayUpdate (if 0 < delta then 1 else -1),
        Event.printEvent true]) := by
  dsimp only [shift_pre_request_delay]
  by_cases hg : delta < 0 ∧ isclose DELAY_POST_MIN_SEC s.post_req_delay = true
  · rw [if_pos hg]
    exact Or.inl rfl
  · rw [if_neg hg, if_neg hδ]
    exact Or.inr rfl

theorem shift_fields (s : MgrState) (delta : ℚ) (s' : MgrState)
    (h : (shift_pre_request_delay s delta).1 = Except.ok s') :
    s'.req_num = s.req_num ∧
    s'.successive_req_num = s.successive_req_num ∧
    s'.samples = s.samples ∧
    s'.rpm = s.rpm ∧
    s'.rpm_allowed_to_increase = s.rpm_allowed_to_increase ∧
    s'.delay_adjustment_enabled = s.delay_adjustment_enabled ∧
    s'.rpm_max = s.rpm_max := by
  by_cases hδ : delta = 0
  · subst hδ
    rw [shift_zero] at h
    exact absurd h (by simp)
  · rcases shift_cases s delta hδ with hc | hc <;> rw [hc] at h <;>
      simp only [Except.ok.injEq] at h <;> subst h
    · exact ⟨rfl, rfl, rfl, rfl, rfl, rfl, rfl⟩
    · exact set_post_req_delay_fields s _

theorem shift_delay_up (s : MgrState) (delta : ℚ) (hδ : 0 ≤ delta)
    (s' : MgrState)
    (h : (shift_pre_request_delay s delta).1 = Except.ok s') :
    s.post_req_delay ≤ s'.post_req_delay := by
  by_cases hz : delta = 0
  · subst hz
    rw [shift_zero] at h
    exact absurd h (by simp)
  · rcases shift_cases s delta hz with hc | hc <;> rw [hc] at h <;>
      simp only [Except.ok.injEq] at h <;> subst h
    · exact le_refl _
    · exact set_post_req_delay_ge s _ (by linarith)

theorem shift_delay_down (s : MgrState) (delta : ℚ)
    (hd : 0 ≤ s.post_req_delay) (hδ : delta ≤ 0) (s' : MgrState)
    (h : (shift_pre_request_delay s delta).1 = Except.ok s') :
    s'.post_req_delay ≤ s.post_req_delay := by
  by_cases hz : delta = 0
  · subst hz
    rw [shift_zero] at h
    exact absurd h (by simp)
  · rcases shift_cases s delta hz with hc | hc <;> rw [hc] at h <;>
      simp only [Except.ok.injEq] at h <;> subst h
    · exact le_refl _
    · exact set_post_req_delay_le s _ hd (by linarith)

/-! ## Monotonicity of Stabilize and Optimize -/

theorem stabilize_delay_mono (s : MgrState) (r : ℚ) (s' : MgrState)
    (h : (stabilize_flow s r).1 = Except.ok s') :
    s.post_req_delay ≤ s'.post_req_delay := by
  dsimp only [stabilize_flow] at h
  by_cases hEn : s.delay_adjustment_enabled = false
  · rw [if_pos hEn] at h
    simp only [Except.ok.injEq] at h
    subst h
    exact le_refl _
  · rw [if_neg hEn] at h
    by_cases hc : DELAY_POST_REQUEST_STABILIZE_SEC ≤ r - s.post_req_delay
    · rw [if_pos hc] at h
      cases hs : (shift_pre_request_delay s
          (r - s.post_req_delay - DELAY_POST_REQUEST_STABILIZE_SEC)).1 with
      | ok s'' =>
        rw [hs] at h
        simp only [Except.ok.injEq] at h
        subst h
        exact shift_delay_up s _ (by linarith) s'' hs
      | error e =>
        rw [hs] at h
        exact absurd h (by simp)
    · rw [if_neg hc] at h
      cases hs : (shift_pre_request_delay s DELAY_POST_REQUEST_STABILIZE_SEC).1 with
      | ok s'' =>
        rw [hs] at h
        simp only [Except.ok.injEq] at h
        subst h
        exact shift_delay_up s _
          (by norm_num [DELAY_POST_REQUEST_STABILIZE_SEC]) s'' hs
      | error e =>
        rw [hs] at h
        exact absurd h (by simp)

theorem optimize_delay_mono (s : MgrState) (hd : 0 ≤ s.post_req_delay)
    (s' : MgrState) (h : (optimize_flow s).1 = Except.ok s') :
    s'.post_req_delay ≤ s.post_req_delay := by
  dsimp only [optimize_flow] at h
  by_cases hEn : s.delay_adjustment_enabled = false
  · rw [if_pos hEn] at h
    simp only [Except.ok.injEq] at h
    subst h
    exact le_refl _
  · rw [if_neg hEn] at h
    by_cases hc : OPTIMIZING_THRESHOLD_MIN ≤
        minutes_without_failures
          { s with successive_req_num := s.successive_req_num + 1 } ∧
        ({ s with successive_req_num := s.successive_req_num + 1 } :
          MgrState).rpm_allowed_to_increase = true
    · rw [if_pos hc] at h
      cases hs : (shift_pre_request_delay
          { s with successive_req_num := s.successive_req_num + 1 }
          (-DELAY_POST_REQUEST_OPTIMIZE_SEC)).1 with
      | ok s2 =>
        rw [hs] at h
        simp only [Except.ok.injEq] at h
        subst h
        exact shift_delay_down
          { s with successive_req_num := s.successive_req_num + 1 }
          (-DELAY_POST_REQUEST_OPTIMIZE_SEC) hd
          (by norm_num [DELAY_POST_REQUEST_OPTIMIZE_SEC]) s2 hs
      | error e =>
        rw [hs] at h
        exact absurd h (by simp)
    · rw [if_neg hc] at h
      simp only [Except.ok.injEq] at h
      subst h
      exact le_refl _

/-! ## C5, C7, C4, C3 -/

/-- C5: for every controller state (with the data-model invariant that the
delay is nonnegative), Stabilize never yields a smaller post-request delay
and Optimize never yields a larger one, whenever they return normally. -/
theorem c5_stabilize_up_optimize_down (s : MgrState)
    (hd : 0 ≤ s.post_req_delay) :
    (∀ (r : ℚ) (s' : MgrState), (stabilize_flow s r).1 = Except.ok s' →
      s.post_req_delay ≤ s'.post_req_delay) ∧
    (∀ s' : MgrState, (optimize_flow s).1 = Except.ok s' →
      s'.post_req_delay ≤ s.post_req_delay) :=
  ⟨fun r s' h => stabilize_delay_mono s r s' h,
   fun s' h => optimize_delay_mono s hd s' h⟩

/-- Witness for C5 at the initial state and `Retry-After = 5`. -/
theorem c5_witness :
    st0.post_req_delay ≤
      (({ st0 with post_req_delay := 24/5 } : MgrState)).post_req_delay :=
  (c5_stabilize_up_optimize_down st0 (by norm_num [st0])).1 5
    { st0 with post_req_delay := 24/5 }
    (by norm_num [stabilize_flow, shift_pre_request_delay,
      set_post_req_delay, isclose, pyabs, pymax, st0, DELAY_POST_MIN_SEC,
      DELAY_POST_REQUEST_STABILIZE_SEC])

/-- C7: `_shift_pre_request_delay` raises `ZeroDivisionError` exactly when
called with `delta = 0`; Stabilize produces that call whenever
`retry_after_sec - post_req_delay` equals the stabilize step; for any
nonzero `delta` the shift returns normally. -/
theorem c7_shift_zero_division (s : MgrState) :
    (shift_pre_request_delay s 0).1 = Except.error PyError.zeroDivision ∧
    (∀ r : ℚ, s.delay_adjustment_enabled = true →
      r - s.post_req_delay = DELAY_POST_REQUEST_STABILIZE_SEC →
      (stabilize_flow s r).1 = Except.error PyError.zeroDivision) ∧
    (∀ delta : ℚ, delta ≠ 0 →
      ∃ s', (shift_pre_request_delay s delta).1 = Except.ok s') := by
  refine ⟨by rw [shift_zero], ?_, ?_⟩
  · intro r hEn hr
    dsimp only [stabilize_flow]
    rw [if_neg (by simp [hEn])]
    rw [if_pos (le_of_eq hr.symm), hr, sub_self, shift_zero]
  · intro delta hδ
    rcases shift_cases s delta hδ with hc | hc <;> rw [hc] <;> exact ⟨_, rfl⟩

/-- Witness for C7 at a concrete enabled state. -/
theorem c7_witness :
    (shift_pre_request_delay st0 0).1 = Except.error PyError.zeroDivision ∧
    (stabilize_flow st0 (1/5)).1 = Except.error PyError.zeroDivision ∧
    ∃ s', (shift_pre_request_delay st0 (-1)).1 = Except.ok s' :=
  ⟨(c7_shift_zero_division st0).1,
   (c7_shift_zero_division st0).2.1 (1/5) rfl
     (by norm_num [st0, DELAY_POST_REQUEST_STABILIZE_SEC]),
   (c7_shift_zero_division st0).2.2 (-1) (by norm_num)⟩

/-- C4: with at most 5 samples the rpm is unknown (`None`); with exactly 6
samples spanning a positive interval it is `60 * 6 / Δt`. -/
theorem c4_compute_rpm :
    (∀ samples : List ℚ, samples.length ≤ 5 → compute_rpm samples = none) ∧
    (∀ samples : List ℚ, samples.length = 6 →
      0 < samples.headI - samples.getLastI →
      compute_rpm samples =
        some (60 * 6 / (samples.headI - samples.getLastI))) := by
  constructor
  · intro l h
    unfold compute_rpm
    rw [if_neg (by omega)]
  · intro l h _
    unfold compute_rpm
    rw [if_pos (by omega), h]
    norm_num

/-- Witness for C4: 3 samples give no rpm; 6 samples spanning 30 seconds
give rpm 12. -/
theorem c4_witness :
    compute_rpm [(1 : ℚ), 2, 3] = none ∧
    compute_rpm [(30 : ℚ), 24, 18, 12, 6, 0] = some 12 := by
  have hh : ([(30 : ℚ), 24, 18, 12, 6, 0]).headI = 30 := rfl
  have hl : ([(30 : ℚ), 24, 18, 12, 6, 0]).getLastI = 0 := rfl
  constructor
  · exact c4_compute_rpm.1 [1, 2, 3] (by simp)
  · have h := c4_compute_rpm.2 [(30 : ℚ), 24, 18, 12, 6, 0] (by simp)
      (by rw [hh, hl]; norm_num)
    rw [h, hh, hl]
    norm_num

/-- C3 counterexample: from delay 1.0, shifting by 0.0005 (a target value
within the 1e-3 tolerance) leaves the stored delay unchanged, yet a
direction notification and a delay-change print event are still emitted,
so the update is not a complete no-op as the claim states. -/
theorem c3_counterexample :
    (shift_pre_request_delay st1 (1/2000)).1 = Except.ok st1 ∧
    (shift_pre_request_delay st1 (1/2000)).2 =
      [Event.onPostRequestDelayUpdate 1, Event.printEvent true] := by
  constructor <;>
    norm_num [shift_pre_request_delay, set_post_req_delay, isclose, pyabs,
      pymax, st1, DELAY_POST_MIN_SEC]

/-- C3 (amended): a sub-tolerance update through the setter is a state
no-op and the setter itself emits nothing; routed through
`_shift_pre_request_delay` with nonzero delta the state is likewise
unchanged, but unless the early return for negative delta at the floor
applies, the renderer notifications are still emitted. -/
theorem c3_noop_update (s : MgrState) (v : ℚ) (hd : 0 ≤ s.post_req_delay)
    (hclose : |s.post_req_delay - v| < 1/1000) :
    set_post_req_delay s v = s ∧
    (∀ delta : ℚ, delta ≠ 0 → v = s.post_req_delay + delta →
      (shift_pre_request_delay s delta).1 = Except.ok s ∧
      ((shift_pre_request_delay s delta).2 = [] ∨
       (shift_pre_request_delay s delta).2 =
         [Event.onPostRequestDelayUpdate (if 0 < delta then 1 else -1),
          Event.printEvent true])) := by
  refine ⟨set_post_req_delay_noop s v hd hclose, ?_⟩
  intro delta hδ hv
  rcases shift_cases s delta hδ with hc | hc <;> rw [hc]
  · exact ⟨rfl, Or.inl rfl⟩
  · refine ⟨?_, Or.inr rfl⟩
    show Except.ok (set_post_req_delay s (s.post_req_delay + delta)) =
      Except.ok s
    rw [← hv, set_post_req_delay_noop s v hd hclose]

/-- Witness for C3 (amended) at delay 1.0 and delta 0.0005. -/
theorem c3_witness :
    set_post_req_delay st1 (1 + 1/2000) = st1 ∧
    (shift_pre_request_delay st1 (1/2000)).1 = Except.ok st1 := by
  have habs : |st1.post_req_delay - (1 + 1/2000)| < 1/1000 := by
    have : st1.post_req_delay - (1 + 1/2000) = -(1/2000) := by
      norm_num [st1]
    rw [this, abs_neg, abs_of_pos (by norm_num)]
    norm_num
  have h := c3_noop_update st1 (1 + 1/2000) (by norm_num [st1]) habs
  exact ⟨h.1, (h.2 (1/2000) (by norm_num) (by norm_num [st1])).1⟩

/-! ## C1: retry budget exhaustion on permanent transport failure -/

theorem countAttempts_append (l1 l2 : List Event) :
    countAttempts (l1 ++ l2) = countAttempts l1 + countAttempts l2 := by
  simp [countAttempts, List.filter_append]

theorem DELAY_length :
    DELAY_TRANSPORT_FAILURE_SEC.length = RETRY_MAX_NUM + 1 := by
  simp [DELAY_TRANSPORT_FAILURE_SEC]

theorem on_request_failure_inbound (s : MgrState) (a : ℕ)
    (hEn : s.delay_adjustment_enabled = true)
    (h : a < DELAY_TRANSPORT_FAILURE_SEC.length) :
    on_request_failure s a =
      (Except.ok { s with successive_req_num := 0 },
       [Event.onRequestFailure a,
        Event.beforeSleeping DELAY_TRANSPORT_FAILURE_SEC[a],
        Event.sleepTotal DELAY_TRANSPORT_FAILURE_SEC[a],
        Event.afterSleeping]) := by
  simp [on_request_failure, get_progressing_delay_on_failure, hEn,
    List.getElem?_eq_getElem h]

theorem on_request_failure_outbound (s : MgrState) (a : ℕ)
    (hEn : s.delay_adjustment_enabled = true)
    (h : DELAY_TRANSPORT_FAILURE_SEC.length ≤ a) :
    on_request_failure s a =
      (Except.error PyError.indexError, [Event.onRequestFailure a]) := by
  simp [on_request_failure, get_progressing_delay_on_failure, hEn,
    List.getElem?_eq_none h]

theorem on_request_failure_static (s : MgrState) (a : ℕ)
    (hEn : s.delay_adjustment_enabled = false) :
    on_request_failure s a =
      (Except.ok { s with successive_req_num := 0 },
       [Event.onRequestFailure a,
        Event.beforeSleeping DELAY_TRANSPORT_FAILURE_STATIC_SEC,
        Event.sleepTotal DELAY_TRANSPORT_FAILURE_STATIC_SEC,
        Event.afterSleeping]) := by
  simp [on_request_failure, get_progressing_delay_on_failure, hEn]

theorem performLoop_transport_fail (request_fn : RequestFn)
    (hfail : ∀ a, request_fn a = Except.error ()) (clock : Clock)
    (cfn : Bool) :
    ∀ fuel a s, s.delay_adjustment_enabled = true →
      a + fuel = RETRY_MAX_NUM + 1 → 1 ≤ fuel →
      (performLoop request_fn clock cfn fuel a s).1 =
        Except.error PyError.indexError ∧
      countAttempts (performLoop request_fn clock cfn fuel a s).2 = fuel := by
  intro fuel
  induction fuel with
  | zero => intro a s _ _ h; omega
  | succ f ih =>
    intro a s hEn hsum _
    have hne : ¬(f + 1 = 0) := by omega
    rw [performLoop]
    by_cases hf : f = 0
    · subst hf
      have ha : a = RETRY_MAX_NUM := by omega
      subst ha
      simp [hfail, hne,
        on_request_failure_outbound s (RETRY_MAX_NUM + 1) hEn
          (by rw [DELAY_length]),
        countAttempts]
    · have hlt : a + 1 < DELAY_TRANSPORT_FAILURE_SEC.length := by
        rw [DELAY_length]; omega
      obtain ⟨h1, h2⟩ := ih (a + 1) { s with successive_req_num := 0 }
        hEn (by omega) (by omega)
      simp only [hfail, hne, if_false,
        on_request_failure_inbound s (a + 1) hEn hlt, Nat.add_sub_cancel]
      refine ⟨h1, ?_⟩
      rw [countAttempts_append, countAttempts_append, h2]
      simp [countAttempts]
      omega

theorem performLoop_transport_fail_static (request_fn : RequestFn)
    (hfail : ∀ a, request_fn a = Except.error ()) (clock : Clock)
    (cfn : Bool) :
    ∀ fuel a s, s.delay_adjustment_enabled = false →
      (performLoop request_fn clock cfn fuel a s).1 =
        Except.error PyError.retryExhausted ∧
      countAttempts (performLoop request_fn clock cfn fuel a s).2 = fuel := by
  intro fuel
  induction fuel with
  | zero =>
    intro a s _
    rw [performLoop]
    simp [countAttempts]
  | succ f ih =>
    intro a s hEn
    have hne : ¬(f + 1 = 0) := by omega
    rw [performLoop]
    obtain ⟨h1, h2⟩ := ih (a + 1) { s with successive_req_num := 0 } hEn
    simp only [hfail, hne, if_false,
      on_request_failure_static s (a + 1) hEn, Nat.add_sub_cancel]
    refine ⟨h1, ?_⟩
    rw [countAttempts_append, countAttempts_append, h2]
    simp [countAttempts]
    omega

theorem countAttempts_beforeRequest (n : ℕ) (l : List Event) :
    countAttempts (Event.beforeRequest n :: l) = countAttempts l := by
  simp [countAttempts]

theorem initialState_eq : initialState = st0 := by
  norm_num [initialState, reinit, set_post_req_delay, isclose, pyabs, pymax,
    DELAY_POST_MIN_SEC, DELAY_POST_REQUEST_INITIAL_SEC, st0]

/-- C1: a callback that raises a transport failure on every invocation is
invoked exactly `RETRY_MAX_NUM + 1 = 21` times (attempts 1..21) from every
starting state; with adaptive delays enabled (the default) the run then
raises `IndexError` — `DELAY_TRANSPORT_FAILURE_SEC[21]` on a 21-element
list, from the 21st attempt's failure handler — rather than the
`RetryExhausted` error; only with adaptive delays disabled does it fail
with `RetryExhausted` as the claim states. -/
theorem c1_always_failing_callback (request_fn : RequestFn)
    (hfail : ∀ a, request_fn a = Except.error ()) (clock : Clock)
    (cfn : Bool) (s : MgrState) :
    (s.delay_adjustment_enabled = true →
      (perform_retriable_request s request_fn clock cfn).1 =
        Except.error PyError.indexError ∧
      countAttempts (perform_retriable_request s request_fn clock cfn).2 =
        RETRY_MAX_NUM + 1) ∧
    (s.delay_adjustment_enabled = false →
      (perform_retriable_request s request_fn clock cfn).1 =
        Except.error PyError.retryExhausted ∧
      countAttempts (perform_retriable_request s request_fn clock cfn).2 =
        RETRY_MAX_NUM + 1) := by
  constructor
  · intro hEn
    obtain ⟨h1, h2⟩ := performLoop_transport_fail request_fn hfail clock cfn
      (RETRY_MAX_NUM + 1) 0 { s with req_num := s.req_num + 1 } hEn
      (by omega) (by omega)
    simp [perform_retriable_request, countAttempts_beforeRequest, h1, h2]
  · intro hEn
    obtain ⟨h1, h2⟩ := performLoop_transport_fail_static request_fn hfail
      clock cfn (RETRY_MAX_NUM + 1) 0 { s with req_num := s.req_num + 1 } hEn
    simp [perform_retriable_request, countAttempts_beforeRequest, h1, h2]

/-- Witness for C1: default (enabled) initial state, constant transport
failure: `IndexError` after 21 attempts. -/
theorem c1_witness :
    (perform_retriable_request initialState (fun _ => Except.error ())
        (fun n => (n : ℚ)) false).1 = Except.error PyError.indexError ∧
    countAttempts (perform_retriable_request initialState
        (fun _ => Except.error ()) (fun n => (n : ℚ)) false).2 =
      RETRY_MAX_NUM + 1 :=
  (c1_always_failing_callback (fun _ => Except.error ()) (fun _ => rfl)
    (fun n => (n : ℚ)) false initialState).1 (by rw [initialState_eq]; rfl)

/-! ## Concrete correctly rounded double values -/

theorem fl_zero : fl 0 = 0 := by
  simp [fl]

theorem fl_one_sixtieth :
    fl ((1 : ℚ)/60) = (4803839602528529 : ℚ)/288230376151711744 := by
  norm_num [fl, flScale, upStep, downStep, roundHalfEven, abs_of_pos]

theorem fl_five : fl (5 : ℚ) = 5 := by
  norm_num [fl, flScale, upStep, downStep, roundHalfEven, abs_of_pos]

theorem fl_five_minus_stab :
    fl ((86469112845513523 : ℚ)/18014398509481984) =
      (5404319552844595 : ℚ)/1125899906842624 := by
  norm_num [fl, flScale, upStep, downStep, roundHalfEven, abs_of_pos]

theorem fl_d48 :
    fl ((5404319552844595 : ℚ)/1125899906842624) =
      (5404319552844595 : ℚ)/1125899906842624 := by
  norm_num [fl, flScale, upStep, downStep, roundHalfEven, abs_of_pos]

theorem fl_neg_d48 :
    fl (-((5404319552844595 : ℚ)/1125899906842624)) =
      -((5404319552844595 : ℚ)/1125899906842624) := by
  norm_num [fl, flScale, upStep, downStep, roundHalfEven, abs_of_pos,
    abs_of_neg]

theorem fl_reltol_d48 :
    fl ((26133685779528074654494055165615 : ℚ)/
        5444517870735015415413993718908291383296) =
      (1450710983537555 : ℚ)/302231454903657293676544 := by
  norm_num [fl, flScale, upStep, downStep, roundHalfEven, abs_of_pos]

theorem fl_nine_eight :
    fl ((11033819087057715 : ℚ)/1125899906842624) =
      (2758454771764429 : ℚ)/281474976710656 := by
  norm_num [fl, flScale, upStep, downStep, roundHalfEven, abs_of_pos]

theorem fl_dwr :
    fl ((225179981368525 : ℚ)/1125899906842624) =
      (225179981368525 : ℚ)/1125899906842624 := by
  norm_num [fl, flScale, upStep, downStep, roundHalfEven, abs_of_pos]

theorem fl_delta2 :
    fl ((3 : ℚ)/18014398509481984) = (3 : ℚ)/18014398509481984 := by
  norm_num [fl, flScale, upStep, downStep, roundHalfEven, abs_of_pos]

/-! ## C2: the two-429s-then-success scenario (double semantics) -/

set_option maxHeartbeats 12000000 in
theorem c2_run_eq :
    perform_retriable_request_fp initialState_fp cbC2 (fun (n : ℕ) => (n : ℚ))
        false =
      (Except.ok (⟨200, none⟩, stC2Final),
       [Event.beforeRequest 1, Event.beforeRequestAttempt 1,
        Event.updateStatistics false 0 (some 0),
        Event.onRequestCompletion false 429, Event.sleepTotal 0,
        Event.onPostRequestDelayUpdate 1, Event.printEvent true,
        Event.beforeSleeping 5,
        Event.sleepTotal ((2758454771764429 : ℚ)/281474976710656),
        Event.beforeRequestAttempt 2,
        Event.updateStatistics false 0 none,
        Event.onRequestCompletion false 429,
        Event.sleepTotal ((5404319552844595 : ℚ)/1125899906842624),
        Event.onPostRequestDelayUpdate 1, Event.printEvent true,
        Event.beforeSleeping 5,
        Event.sleepTotal ((2758454771764429 : ℚ)/281474976710656),
        Event.beforeRequestAttempt 3,
        Event.updateStatistics true 0 none,
        Event.onRequestCompletion true 200,
        Event.sleepTotal ((5404319552844595 : ℚ)/1125899906842624)]) := by
  norm_num [perform_retriable_request_fp, performLoop_fp,
    on_request_completion_fp, on_rate_limited_request_fail_fp,
    optimize_flow_fp, stabilize_flow_fp, shift_pre_request_delay_fp,
    set_post_req_delay_fp, isclose_fp, pyabs, pymax, compute_rpm_fp,
    minutes_without_failures_fp, reinit_fp, initialState_fp, cbC2,
    Response.ok, OPTIMIZING_THRESHOLD_MIN, DELAY_POST_MIN_SEC,
    DELAY_POST_REQUEST_INITIAL_SEC, DELAY_POST_REQUEST_STABILIZE_SEC_FP,
    DELAY_POST_REQUEST_OPTIMIZE_SEC_FP, ISCLOSE_ABS_TOL_FP,
    ISCLOSE_REL_TOL_FP, SAMPLES_MAX_LEN, RETRY_MAX_NUM, fl_zero,
    fl_one_sixtieth, fl_five, fl_five_minus_stab, fl_d48, fl_neg_d48,
    fl_reltol_d48, fl_nine_eight, fl_dwr, fl_delta2, stC2Final, D48_FP]

/-- C2 counterexample (IEEE-754 double semantics): the run returns the
third invocation's response, but the post-request delay does not strictly
increase on the second rate-limit event.  Entering it at `4.8` (the double
`fl (5 - 0.2)`), the stabilize delta `fl (fl (5 - 4.8) - 0.2)` is the
nonzero sub-ulp value `3 * 2 ^ (-54)`, yet `fl (4.8 + delta)` rounds back
to `4.8` and the setter's `1e-03` tolerance suppresses the write, so the
handler only resets the consecutive-success counter and the delay stays
`4.8`. -/
theorem c2_counterexample :
    (perform_retriable_request_fp initialState_fp cbC2 (fun (n : ℕ) => (n : ℚ))
        false).1 = Except.ok (⟨200, none⟩, stC2Final) ∧
    (on_rate_limited_request_fail_fp stC2Mid2 5).1 = Except.ok stC2Mid3 ∧
    stC2Mid3.post_req_delay = stC2Mid2.post_req_delay := by
  refine ⟨?_, ?_, rfl⟩
  · rw [c2_run_eq]
  · norm_num [on_rate_limited_request_fail_fp, stabilize_flow_fp,
      shift_pre_request_delay_fp, set_post_req_delay_fp, isclose_fp, pyabs,
      pymax, DELAY_POST_MIN_SEC, DELAY_POST_REQUEST_STABILIZE_SEC_FP,
      ISCLOSE_ABS_TOL_FP, ISCLOSE_REL_TOL_FP, fl_zero, fl_five_minus_stab,
      fl_d48, fl_reltol_d48, fl_dwr, fl_delta2, stC2Mid2, stC2Mid3, D48_FP]

/-- C2 (amended, IEEE-754 double semantics): the full behaviour of the
scenario.  After each of the two 429s the controller sleeps
`fl (5 + 4.8) = 9.8 ≥ 5` seconds and the third invocation's response is
returned to the caller; but the delay strictly increases only on the first
rate-limit event (`0 → 4.8`): on the second, the sub-ulp stabilize delta
is suppressed by the setter's `1e-03` tolerance and the delay stays `4.8`
(a `+1` direction notification is still emitted).  In the exact-rational
idealization the second delta is exactly `5 - 4.8 - 0.2 = 0` and
`_shift_pre_request_delay` would instead raise `ZeroDivisionError`. -/
theorem c2_run_trace :
    perform_retriable_request_fp initialState_fp cbC2 (fun (n : ℕ) => (n : ℚ))
        false =
      (Except.ok (⟨200, none⟩, stC2Final),
       [Event.beforeRequest 1, Event.beforeRequestAttempt 1,
        Event.updateStatistics false 0 (some 0),
        Event.onRequestCompletion false 429, Event.sleepTotal 0,
        Event.onPostRequestDelayUpdate 1, Event.printEvent true,
        Event.beforeSleeping 5,
        Event.sleepTotal ((2758454771764429 : ℚ)/281474976710656),
        Event.beforeRequestAttempt 2,
        Event.updateStatistics false 0 none,
        Event.onRequestCompletion false 429,
        Event.sleepTotal ((5404319552844595 : ℚ)/1125899906842624),
        Event.onPostRequestDelayUpdate 1, Event.printEvent true,
        Event.beforeSleeping 5,
        Event.sleepTotal ((2758454771764429 : ℚ)/281474976710656),
        Event.beforeRequestAttempt 3,
        Event.updateStatistics true 0 none,
        Event.onRequestCompletion true 200,
        Event.sleepTotal ((5404319552844595 : ℚ)/1125899906842624)]) :=
  c2_run_eq

/-! ## Specifications of the completion and rate-limit handlers -/

theorem optimize_disabled (s : MgrState)
    (hEn : s.delay_adjustment_enabled = false) :
    optimize_flow s = (Except.ok s, []) := by
  simp [optimize_flow, hEn]

theorem threshold_iff (s : MgrState) :
    (OPTIMIZING_THRESHOLD_MIN ≤ minutes_without_failures s) ↔
      90 ≤ s.successive_req_num := by
  unfold OPTIMIZING_THRESHOLD_MIN minutes_without_failures
  rw [le_div_iff₀ (by norm_num : (0:ℚ) < 60)]
  constructor
  · intro h
    exact_mod_cast (by linarith : (90:ℚ) ≤ s.successive_req_num)
  · intro h
    have : (90:ℚ) ≤ s.successive_req_num := by exact_mod_cast h
    linarith

theorem optimize_spec (s : MgrState)
    (hEn : s.delay_adjustment_enabled = true) :
    ∃ s1 e1, optimize_flow s = (Except.ok s1, e1) ∧
      Event.sleepTotal s1.post_req_delay ∈ e1 ∧
      countAttempts e1 = 0 ∧
      s1.delay_adjustment_enabled = true ∧
      (s.successive_req_num + 1 < 90 →
        s1.successive_req_num = s.successive_req_num + 1) := by
  dsimp only [optimize_flow]
  rw [if_neg (by simp [hEn])]
  by_cases hc : OPTIMIZING_THRESHOLD_MIN ≤
      minutes_without_failures
        { s with successive_req_num := s.successive_req_num + 1 } ∧
      ({ s with successive_req_num := s.successive_req_num + 1 } :
        MgrState).rpm_allowed_to_increase = true
  · rw [if_pos hc]
    have h90 : 90 ≤ s.successive_req_num + 1 :=
      (threshold_iff { s with successive_req_num := s.successive_req_num + 1 }).mp hc.1
    have hδ : (-DELAY_POST_REQUEST_OPTIMIZE_SEC : ℚ) ≠ 0 := by
      norm_num [DELAY_POST_REQUEST_OPTIMIZE_SEC]
    rcases shift_cases { s with successive_req_num := s.successive_req_num + 1 }
        (-DELAY_POST_REQUEST_OPTIMIZE_SEC) hδ with hcc | hcc <;> rw [hcc]
    · refine ⟨_, _, rfl, ?_, rfl, hEn, fun h => absurd h (by omega)⟩
      simp
    · refine ⟨_, _, rfl, ?_, rfl, ?_, fun h => absurd h (by omega)⟩
      · simp
      · exact (set_post_req_delay_fields _ _).2.2.2.2.2.1.trans hEn
  · rw [if_neg hc]
    exact ⟨_, _, rfl, by simp, rfl, hEn, fun _ => rfl⟩

theorem on_request_completion_spec (s : MgrState) (response : Response)
    (sz : ℕ) (now : ℚ) :
    ∃ s1 e1,
      on_request_completion s response sz now = (Except.ok s1, e1) ∧
      countAttempts e1 = 0 ∧
      s1.delay_adjustment_enabled = s.delay_adjustment_enabled ∧
      (s.delay_adjustment_enabled = true →
        Event.sleepTotal s1.post_req_delay ∈ e1 ∧
        (s.successive_req_num + 1 < 90 →
          s1.successive_req_num = s.successive_req_num + 1)) := by
  by_cases hEn : s.delay_adjustment_enabled = true
  · obtain ⟨s1, e1, hopt, hmem, hcnt, hEn1, hinc⟩ :=
      optimize_spec
        { s with
          samples := now ::
            (if SAMPLES_MAX_LEN ≤ s.samples.length then s.samples.dropLast
             else s.samples),
          rpm := compute_rpm (now ::
            (if SAMPLES_MAX_LEN ≤ s.samples.length then s.samples.dropLast
             else s.samples)) } hEn
    refine ⟨s1,
      [Event.updateStatistics response.ok sz s.rpm,
       Event.onRequestCompletion response.ok response.status_code] ++ e1,
      ?_, ?_, ?_, ?_⟩
    · show ((optimize_flow _).1, _ ++ (optimize_flow _).2) = _
      rw [hopt]
    · rw [countAttempts_append, hcnt]
      rfl
    · rw [hEn1, hEn]
    · intro _
      exact ⟨List.mem_append_right _ hmem, hinc⟩
  · have hEn' : s.delay_adjustment_enabled = false := by
      cases h : s.delay_adjustment_enabled
      · rfl
      · exact absurd h hEn
    refine ⟨{ s with
        samples := now ::
          (if SAMPLES_MAX_LEN ≤ s.samples.length then s.samples.dropLast
           else s.samples),
        rpm := compute_rpm (now ::
          (if SAMPLES_MAX_LEN ≤ s.samples.length then s.samples.dropLast
           else s.samples)) },
      [Event.updateStatistics response.ok sz s.rpm,
       Event.onRequestCompletion response.ok response.status_code],
      ?_, rfl, rfl, fun h => absurd h hEn⟩
    show ((optimize_flow _).1, _ ++ (optimize_flow _).2) = _
    rw [optimize_disabled { s with
        samples := now ::
          (if SAMPLES_MAX_LEN ≤ s.samples.length then s.samples.dropLast
           else s.samples),
        rpm := compute_rpm (now ::
          (if SAMPLES_MAX_LEN ≤ s.samples.length then s.samples.dropLast
           else s.samples)) } hEn']
    simp

theorem on_rate_limited_spec (s : MgrState) (r : ℚ)
    (hEn : s.delay_adjustment_enabled = true)
    (hne : r - s.post_req_delay ≠ DELAY_POST_REQUEST_STABILIZE_SEC) :
    ∃ s2 e2, on_rate_limited_request_fail s r = (Except.ok s2, e2) ∧
      s2.successive_req_num = 0 ∧
      Event.sleepTotal (r + s2.post_req_delay) ∈ e2 ∧
      countAttempts e2 = 0 := by
  dsimp only [on_rate_limited_request_fail, stabilize_flow]
  rw [if_neg (by simp [hEn])]
  by_cases hc : DELAY_POST_REQUEST_STABILIZE_SEC ≤ r - s.post_req_delay
  · rw [if_pos hc]
    have hδ : r - s.post_req_delay - DELAY_POST_REQUEST_STABILIZE_SEC ≠ 0 :=
      fun h => hne (by linarith)
    rcases shift_cases s
        (r - s.post_req_delay - DELAY_POST_REQUEST_STABILIZE_SEC) hδ with
      hcc | hcc <;> rw [hcc] <;>
      exact ⟨_, _, rfl, rfl, by simp, rfl⟩
  · rw [if_neg hc]
    have hδ : (DELAY_POST_REQUEST_STABILIZE_SEC : ℚ) ≠ 0 := by
      norm_num [DELAY_POST_REQUEST_STABILIZE_SEC]
    rcases shift_cases s DELAY_POST_REQUEST_STABILIZE_SEC hδ with hcc | hcc <;>
      rw [hcc] <;> exact ⟨_, _, rfl, rfl, by simp, rfl⟩

/-! ## C6: non-429 responses are returned immediately -/

/-- C6: whenever the callback delivers a response whose status is not 429
(ok or error alike), the loop body returns exactly that response after the
completion handler, with no further attempt (a single attempt notification
in the whole trace); an `Except.ok` result — a response — is the only
non-failing exit path of the loop by its result type. -/
theorem countAttempts_attempt_cons (n : ℕ) (l : List Event) :
    countAttempts (Event.beforeRequestAttempt n :: l) =
      countAttempts l + 1 := by
  simp [countAttempts]

theorem c6_non429_returned (request_fn : RequestFn) (clock : Clock)
    (cfn : Bool) (fuel a : ℕ) (s : MgrState) (response : Response)
    (content_size : ℕ)
    (hok : request_fn (a + 1) = Except.ok (response, content_size))
    (h429 : response.status_code ≠ 429) :
    ∃ s1 e1,
      on_request_completion s response content_size (clock (a + 1)) =
        (Except.ok s1, e1) ∧
      performLoop request_fn clock cfn (fuel + 1) a s =
        (Except.ok (response, s1),
         Event.beforeRequestAttempt (a + 1) ::
           (e1 ++ (if cfn then [Event.printEvent false] else []))) ∧
      countAttempts (performLoop request_fn clock cfn (fuel + 1) a s).2 =
        1 := by
  obtain ⟨s1, e1, hcomp, hcnt, _, _⟩ :=
    on_request_completion_spec s response content_size (clock (a + 1))
  have hloop : performLoop request_fn clock cfn (fuel + 1) a s =
      (Except.ok (response, s1),
       Event.beforeRequestAttempt (a + 1) ::
         (e1 ++ (if cfn then [Event.printEvent false] else []))) := by
    rw [performLoop]
    rw [if_neg (by omega : ¬(fuel + 1 = 0))]
    dsimp only
    rw [hok]
    dsimp only
    rw [hcomp]
    dsimp only
    rw [if_neg (fun hcon => h429 hcon.2)]
    simp
  refine ⟨s1, e1, hcomp, hloop, ?_⟩
  rw [hloop]
  show countAttempts (Event.beforeRequestAttempt (a + 1) :: (e1 ++ _)) = 1
  rw [countAttempts_attempt_cons, countAttempts_append, hcnt]
  cases cfn <;> rfl

/-- Witness for C6: a 404 (an error status) delivered on the first attempt
is returned at once. -/
theorem c6_witness :
    ∃ s1 e1,
      on_request_completion st0 ⟨404, none⟩ 7
          ((fun (n : ℕ) => (n : ℚ)) (0 + 1)) = (Except.ok s1, e1) ∧
      performLoop (fun _ => Except.ok (⟨404, none⟩, 7))
          (fun (n : ℕ) => (n : ℚ)) false (20 + 1) 0 st0 =
        (Except.ok (⟨404, none⟩, s1),
         Event.beforeRequestAttempt (0 + 1) ::
           (e1 ++ (if false then [Event.printEvent false] else []))) ∧
      countAttempts (performLoop (fun _ => Except.ok (⟨404, none⟩, 7))
          (fun (n : ℕ) => (n : ℚ)) false (20 + 1) 0 st0).2 = 1 :=
  c6_non429_returned (fun _ => Except.ok (⟨404, none⟩, 7))
    (fun (n : ℕ) => (n : ℚ)) false 20 0 st0 ⟨404, none⟩ 7 rfl (by decide)

/-! ## C8: handler ordering on a 429 response -/

/-- C8 counterexample: the claim fails as stated.  With delay adjustment
disabled, a 429 is processed without incrementing the counter and with a
single sleep (the rate-limit one); with delay adjustment enabled but a
retry-after equal to the stabilize step from a fresh state, the rate-limit
handler raises `ZeroDivisionError`, so the second sleep never happens. -/
theorem c8_counterexample :
    on_request_completion stDis ⟨429, some 5⟩ 0 1 =
      (Except.ok stDisA,
       [Event.updateStatistics false 0 (some 0),
        Event.onRequestCompletion false 429]) ∧
    stDisA.successive_req_num = stDis.successive_req_num ∧
    on_rate_limited_request_fail stDisA 5 =
      (Except.ok stDisA, [Event.beforeSleeping 5, Event.sleepTotal 5]) ∧
    countSleeps
      [Event.updateStatistics false 0 (some 0),
       Event.onRequestCompletion false 429,
       Event.beforeSleeping 5, Event.sleepTotal 5] = 1 ∧
    (on_request_completion st0 ⟨429, some (1/5)⟩ 0 1).1 =
      Except.ok stC8 ∧
    (on_rate_limited_request_fail stC8 (1/5)).1 =
      Except.error PyError.zeroDivision := by
  refine ⟨?_, rfl, ?_, rfl, ?_, ?_⟩ <;>
    norm_num [on_request_completion, on_rate_limited_request_fail,
      optimize_flow, stabilize_flow, shift_pre_request_delay,
      set_post_req_delay, isclose, pyabs, pymax, compute_rpm,
      minutes_without_failures, stDis, stDisA, st0, stC8, Response.ok,
      OPTIMIZING_THRESHOLD_MIN, DELAY_POST_MIN_SEC,
      DELAY_POST_REQUEST_STABILIZE_SEC, DELAY_POST_REQUEST_OPTIMIZE_SEC,
      SAMPLES_MAX_LEN]

/-- C8 (amended): when delay adjustment is enabled, the completion handler
(Optimize included) runs before the rate-limit handler: the counter is
incremented (below the optimize threshold) and then reset to 0 by
Stabilize; the controller sleeps the post-Optimize delay once as the
per-request throttle, and — provided the stabilize delta is nonzero, since
otherwise the delay shift raises `ZeroDivisionError` — once more for
`retryAfter +` the post-Stabilize delay, with the completion trace
preceding the rate-limit trace inside the loop. -/
theorem c8_completion_before_rate_limit (s : MgrState)
    (response : Response) (sz : ℕ) (now r : ℚ) (s1 : MgrState)
    (e1 : List Event) (hEn : s.delay_adjustment_enabled = true)
    (hcomp : on_request_completion s response sz now = (Except.ok s1, e1))
    (hne : r - s1.post_req_delay ≠ DELAY_POST_REQUEST_STABILIZE_SEC) :
    Event.sleepTotal s1.post_req_delay ∈ e1 ∧
    (s.successive_req_num + 1 < 90 →
      s1.successive_req_num = s.successive_req_num + 1) ∧
    ∃ s2 e2, on_rate_limited_request_fail s1 r = (Except.ok s2, e2) ∧
      s2.successive_req_num = 0 ∧
      Event.sleepTotal (r + s2.post_req_delay) ∈ e2 ∧
      ∀ (request_fn : RequestFn) (clock : Clock) (cfn : Bool) (fuel a : ℕ),
        request_fn (a + 1) = Except.ok (response, sz) →
        clock (a + 1) = now →
        response.ok = false → response.status_code = 429 →
        response.retryAfterHeader = some r →
        performLoop request_fn clock cfn (fuel + 1) a s =
          ((performLoop request_fn clock cfn fuel (a + 1) s2).1,
           Event.beforeRequestAttempt (a + 1) ::
             (e1 ++ (e2 ++
               (performLoop request_fn clock cfn fuel (a + 1) s2).2))) := by
  obtain ⟨s1', e1', hcomp', hcnt, hEn1, himp⟩ :=
    on_request_completion_spec s response sz now
  rw [hcomp'] at hcomp
  have hs1 : s1' = s1 := by
    have := congrArg Prod.fst hcomp
    simpa using this
  have he1 : e1' = e1 := by
    have := congrArg Prod.snd hcomp
    simpa using this
  subst hs1
  subst he1
  obtain ⟨hmem, hinc⟩ := himp hEn
  have hEn1' : s1'.delay_adjustment_enabled = true := by rw [hEn1]; exact hEn
  obtain ⟨s2, e2, hrl, h0, hmem2, _⟩ := on_rate_limited_spec s1' r hEn1' hne
  refine ⟨hmem, hinc, s2, e2, hrl, h0, hmem2, ?_⟩
  intro request_fn clock cfn fuel a hreq hclock hokf h429 hheader
  rw [performLoop]
  rw [if_neg (by omega : ¬(fuel + 1 = 0))]
  dsimp only
  rw [hreq]
  dsimp only
  rw [hclock, hcomp']
  dsimp only
  rw [if_pos ⟨hokf, h429⟩, hheader]
  dsimp only
  rw [hrl]
  simp

/-- Witness for C8 (amended) at the fresh enabled state and a 429 with
`Retry-After = 5`. -/
theorem c8_witness :
    Event.sleepTotal stC8.post_req_delay ∈
      [Event.updateStatistics false 0 (some 0),
       Event.onRequestCompletion false 429, Event.sleepTotal 0] ∧
    (st0.successive_req_num + 1 < 90 →
      stC8.successive_req_num = st0.successive_req_num + 1) ∧
    ∃ s2 e2, on_rate_limited_request_fail stC8 5 = (Except.ok s2, e2) ∧
      s2.successive_req_num = 0 ∧
      Event.sleepTotal (5 + s2.post_req_delay) ∈ e2 := by
  have h := c8_completion_before_rate_limit st0 ⟨429, some 5⟩ 0 1 5 stC8
    [Event.updateStatistics false 0 (some 0),
     Event.onRequestCompletion false 429, Event.sleepTotal 0]
    rfl
    (by norm_num [on_request_completion, optimize_flow, compute_rpm,
      minutes_without_failures, st0, stC8, Response.ok,
      OPTIMIZING_THRESHOLD_MIN, SAMPLES_MAX_LEN])
    (by norm_num [stC8, DELAY_POST_REQUEST_STABILIZE_SEC])
  obtain ⟨hm, hi, s2, e2, hrl, h0, hm2, _⟩ := h
  exact ⟨hm, hi, s2, e2, hrl, h0, hm2⟩

/-! ## C9: the byte-size formatter -/

theorem natChars_one : natChars 1 = ['1'] := by decide

/-- C9 counterexample: the number is right-aligned in a 5 character field
(`'{:5d}'` / `AutoFloat` with `max_len = 5`), so the literal outputs carry
left padding and are not the claimed strings. -/
theorem c9_counterexample :
    fmt_sizeof 0 ≠ "0 b" ∧ fmt_sizeof 1536 ≠ "1.50 kb" ∧
    fmt_sizeof 1048576 ≠ "1.00 Mb" := by
  refine ⟨?_, ?_, ?_⟩ <;>
    norm_num [fmt_sizeof, sizeofGo, pymax, SIZEOF_UNIT_NAMES, autoFloat5,
      natChars_one, fixedFormat, roundHalfEven] <;>
    decide

/-- C9 (amended): with the default separator and unit the formatter maps 0
to `"    0 b"`, 1536 to `" 1.50 kb"` and 1048576 to `" 1.00 Mb"` — the
claimed strings up to the leading spaces of the fixed-width right-aligned
numeric field, as stripping the padding confirms (1024-based units,
adaptive decimal precision). -/
theorem c9_fmt_sizeof_values :
    fmt_sizeof 0 = "    0 b" ∧
    (fmt_sizeof 0).data.dropWhile (fun c => c = ' ') = "0 b".data ∧
    fmt_sizeof 1536 = " 1.50 kb" ∧
    (fmt_sizeof 1536).data.dropWhile (fun c => c = ' ') = "1.50 kb".data ∧
    fmt_sizeof 1048576 = " 1.00 Mb" ∧
    (fmt_sizeof 1048576).data.dropWhile (fun c => c = ' ') =
      "1.00 Mb".data := by
  have h0 : fmt_sizeof 0 = "    0 b" := by
    norm_num [fmt_sizeof, sizeofGo, pymax, SIZEOF_UNIT_NAMES]
    decide
  have h1 : fmt_sizeof 1536 = " 1.50 kb" := by
    norm_num [fmt_sizeof, sizeofGo, pymax, SIZEOF_UNIT_NAMES, autoFloat5,
      natChars_one, fixedFormat, roundHalfEven]
    decide
  have h2 : fmt_sizeof 1048576 = " 1.00 Mb" := by
    norm_num [fmt_sizeof, sizeofGo, pymax, SIZEOF_UNIT_NAMES, autoFloat5,
      natChars_one, fixedFormat, roundHalfEven]
    decide
  refine ⟨h0, ?_, h1, ?_, h2, ?_⟩ <;> [rw [h0]; rw [h1]; rw [h2]] <;> decide

/-! ## C10: SGR sequence stripping -/

theorem length_dropWhile_le (p : Char → Bool) (l : List Char) :
    (l.dropWhile p).length ≤ l.length := by
  induction l with
  | nil => simp
  | cons c t ih =>
    rw [List.dropWhile_cons]
    split
    · exact ih.trans (by simp)
    · simp

theorem trySGR_none_of_ne (c : Char) (t : List Char) (h : c ≠ '\x1b') :
    trySGR (c :: t) = none := by
  cases t with
  | nil => rfl
  | cons c2 t2 =>
    unfold trySGR
    dsimp only
    rw [if_neg (fun hcon => h hcon.1)]

theorem trySGR_length (l r : List Char) (h : trySGR l = some r) :
    r.length < l.length := by
  match l with
  | [] => exact absurd h (by simp [trySGR])
  | [c] => exact absurd h (by simp [trySGR])
  | c1 :: c2 :: rest =>
    unfold trySGR at h
    dsimp only at h
    by_cases hc : c1 = '\x1b' ∧ c2 = '['
    · rw [if_pos hc] at h
      have hlen : (rest.dropWhile isParamChar).length ≤ rest.length :=
        length_dropWhile_le _ _
      cases hd : rest.dropWhile isParamChar with
      | nil =>
        rw [hd] at h
        exact absurd h (by simp)
      | cons c3 tail =>
        rw [hd] at h hlen
        dsimp only at h
        by_cases hm : c3 = 'm'
        · rw [if_pos hm] at h
          simp only [Option.some.injEq] at h
          subst h
          simp only [List.length_cons] at hlen ⊢
          omega
        · rw [if_neg hm] at h
          exact absurd h (by simp)
    · rw [if_neg hc] at h
      exact absurd h (by simp)

theorem stripAux_nil (fuel : ℕ) : stripAux fuel [] = [] := by
  cases fuel <;> rfl

theorem stripAux_congr :
    ∀ f1 f2 l, l.length ≤ f1 → l.length ≤ f2 →
      stripAux f1 l = stripAux f2 l := by
  intro f1
  induction f1 with
  | zero =>
    intro f2 l h1 _
    have : l = [] := List.length_eq_zero.mp (by omega)
    subst this
    rw [stripAux_nil, stripAux_nil]
  | succ f ih =>
    intro f2 l h1 h2
    cases l with
    | nil => rw [stripAux_nil, stripAux_nil]
    | cons c t =>
      cases f2 with
      | zero => simp at h2
      | succ f2' =>
        show (match trySGR (c :: t) with
          | some r => stripAux f r
          | none => c :: stripAux f t) =
          (match trySGR (c :: t) with
          | some r => stripAux f2' r
          | none => c :: stripAux f2' t)
        cases h : trySGR (c :: t) with
        | some r =>
          have hr := trySGR_length (c :: t) r h
          simp only [List.length_cons] at h1 h2 hr
          exact ih f2' r (by omega) (by omega)
        | none =>
          simp only [List.length_cons] at h1 h2
          rw [ih f2' t (by omega) (by omega)]

theorem strip_cons_none (c : Char) (t : List Char)
    (h : trySGR (c :: t) = none) :
    remove_sgr_seqs (c :: t) = c :: remove_sgr_seqs t := by
  unfold remove_sgr_seqs
  show (match trySGR (c :: t) with
    | some r => stripAux t.length r
    | none => c :: stripAux t.length t) = _
  rw [h]

theorem strip_cons_some (c : Char) (t r : List Char)
    (h : trySGR (c :: t) = some r) :
    remove_sgr_seqs (c :: t) = remove_sgr_seqs r := by
  unfold remove_sgr_seqs
  show (match trySGR (c :: t) with
    | some r => stripAux t.length r
    | none => c :: stripAux t.length t) = _
  rw [h]
  have hr := trySGR_length (c :: t) r h
  simp only [List.length_cons] at hr
  exact stripAux_congr t.length r.length r (by omega) (by omega)

theorem isParamChar_digitChar (m : ℕ) (h : m < 10) :
    isParamChar (digitChar m) = true := by
  revert h
  revert m
  decide

theorem isParamChar_natCharsAux (fuel : ℕ) :
    ∀ n, ∀ c ∈ natCharsAux fuel n, isParamChar c = true := by
  induction fuel with
  | zero => intro n c hc; simp [natCharsAux] at hc
  | succ f ih =>
    intro n c hc
    by_cases hn : n < 10
    · simp only [natCharsAux, if_pos hn, List.mem_singleton] at hc
      subst hc
      exact isParamChar_digitChar n hn
    · simp only [natCharsAux, if_neg hn, List.mem_append,
        List.mem_singleton] at hc
      rcases hc with hc | hc
      · exact ih (n / 10) c hc
      · subst hc
        exact isParamChar_digitChar (n % 10) (Nat.mod_lt n (by omega))

theorem isParamChar_joinParams (params : List ℤ)
    (hpos : ∀ z ∈ params, 0 ≤ z) :
    ∀ c ∈ joinParams params, isParamChar c = true := by
  induction params with
  | nil => intro c hc; simp [joinParams] at hc
  | cons p rest ih =>
    intro c hc
    cases rest with
    | nil =>
      have hp : 0 ≤ p := hpos p (by simp)
      simp only [joinParams, intChars, if_neg (not_lt.mpr hp)] at hc
      exact isParamChar_natCharsAux _ _ c hc
    | cons q rest' =>
      have hp : 0 ≤ p := hpos p (by simp)
      simp only [joinParams, intChars, if_neg (not_lt.mpr hp),
        List.mem_append, List.mem_cons] at hc
      rcases hc with hc | hc | hc
      · exact isParamChar_natCharsAux _ _ c hc
      · subst hc; decide
      · exact ih (fun z hz => hpos z (List.mem_cons_of_mem p hz)) c
          (by simpa [joinParams] using hc)

theorem dropWhile_append_all (a b : List Char)
    (h : ∀ c ∈ a, isParamChar c = true) :
    (a ++ b).dropWhile isParamChar = b.dropWhile isParamChar := by
  induction a with
  | nil => rfl
  | cons c rest ih =>
    rw [List.cons_append, List.dropWhile_cons, if_pos (h c (by simp))]
    exact ih (fun x hx => h x (List.mem_cons_of_mem c hx))

theorem trySGR_seqStr (params : List ℤ) (hpos : ∀ z ∈ params, 0 ≤ z)
    (s2 : List Char) : trySGR (seqStr params ++ s2) = some s2 := by
  show trySGR ('\x1b' :: '[' :: ((joinParams params ++ ['m']) ++ s2)) =
    some s2
  unfold trySGR
  dsimp only
  rw [if_pos ⟨rfl, rfl⟩, List.append_assoc,
    dropWhile_append_all _ _ (isParamChar_joinParams params hpos),
    List.singleton_append, List.dropWhile_cons,
    if_neg (by simp [isParamChar])]
  dsimp only
  rw [if_pos rfl]

theorem strip_append_no_esc (s1 : List Char) (h : '\x1b' ∉ s1)
    (t : List Char) :
    remove_sgr_seqs (s1 ++ t) = s1 ++ remove_sgr_seqs t := by
  induction s1 with
  | nil => rfl
  | cons c rest ih =>
    have hc : c ≠ '\x1b' := fun hceq => h (by rw [hceq]; simp)
    rw [List.cons_append,
      strip_cons_none c (rest ++ t) (trySGR_none_of_ne c _ hc),
      ih (fun hm => h (List.mem_cons_of_mem c hm)), List.cons_append]

theorem strip_no_esc (s : List Char) (h : '\x1b' ∉ s) :
    remove_sgr_seqs s = s := by
  have := strip_append_no_esc s h []
  simpa [remove_sgr_seqs, stripAux_nil] using this

/-- C10 counterexample: the claim fails as stated.  With a parameter list
containing a negative int (allowed by `SGRSequence(*params: int)`), the
rendered sequence contains `-`, which `[0-9;]` does not match, so nothing
is stripped; and when `s1` ends with a partial sequence, the single
left-to-right pass of `re.sub` glues the leftovers into a new sequence
that the claimed identity misses. -/
theorem c10_counterexample :
    remove_sgr_seqs (['\x1b', '[', '3'] ++ seqStr [0] ++ ['1', 'm']) ≠
      remove_sgr_seqs (['\x1b', '[', '3'] ++ ['1', 'm']) ∧
    remove_sgr_seqs (seqStr [-1]) ≠ remove_sgr_seqs [] := by
  decide

/-- C10 (amended): for every parameter list of nonnegative ints and every
surrounding strings free of the escape character, stripping removes the
builder's sequence exactly: `strip (s1 ++ str(SGRSequence(p)) ++ s2) = s1
++ s2 = strip (s1 ++ s2)` — so no sequence the ANSI attribute builder
emits ever contributes to the visible length the renderer's `_print`
accounts via `len(remove_sgr_seqs(s))`. -/
theorem c10_strip_builder (params : List ℤ) (s1 s2 : List Char)
    (hpos : ∀ z ∈ params, 0 ≤ z) (h1 : '\x1b' ∉ s1) (h2 : '\x1b' ∉ s2) :
    remove_sgr_seqs (s1 ++ seqStr params ++ s2) = s1 ++ s2 ∧
    remove_sgr_seqs (s1 ++ s2) = s1 ++ s2 := by
  constructor
  · rw [List.append_assoc, strip_append_no_esc s1 h1]
    have hseq : remove_sgr_seqs (seqStr params ++ s2) =
        remove_sgr_seqs s2 := by
      show remove_sgr_seqs
        ('\x1b' :: ('[' :: (joinParams params ++ ['m']) ++ s2)) = _
      rw [strip_cons_some '\x1b' _ s2
        (by simpa [seqStr] using trySGR_seqStr params hpos s2)]
    rw [hseq, strip_no_esc s2 h2]
  · rw [strip_append_no_esc s1 h1, strip_no_esc s2 h2]

/-- Witness for C10 (amended) at `p = [31]`, `s1 = "a"`, `s2 = "b"`. -/
theorem c10_witness :
    remove_sgr_seqs (['a'] ++ seqStr [31] ++ ['b']) = ['a'] ++ ['b'] ∧
    remove_sgr_seqs (['a'] ++ ['b']) = ['a'] ++ ['b'] :=
  c10_strip_builder [31] ['a'] ['b'] (by decide) (by decide) (by decide)

end Pyslacker
